import Mathlib

/-!
Verification development for the resume-to-JD matching backend
(`routers/matching.py`, `routers/workflow.py`, `database.py`).

The Python code is shallowly embedded: MongoDB collections become lists held
in a `DB` record, documents become structures, JSON payloads become `JValue`,
`datetime.utcnow()` becomes an explicit epoch-milliseconds parameter, and the
HTTP call to the external AI agent becomes a `NetOutcome` oracle parameter.
Raised exceptions become `Except` errors.  The `crud` module is not part of
the sources; its thin persistence operations are modelled from the spec
(see the doc comments marked `Modelled from the spec:`).
-/

/-- JSON-like values, used for the free-form extracted/breakdown payloads. -/
inductive JValue where
  | jnull
  | jbool (b : Bool)
  | jnum (q : ℚ)
  | jstr (s : String)
  | jarr (elems : List JValue)
  | jobj (fields : List (String × JValue))

/-- Shape of the dict returned by `mock_ai_matching` in `routers/matching.py`. -/
structure MockResult where
  match_score : ℚ
  fit_category : String
  jd_extracted : JValue
  resume_extracted : JValue
  match_breakdown : JValue
  selection_reason : String
  confidence_score : ℚ
  processing_duration_ms : ℕ

/-- Embedding of `mock_ai_matching` (routers/matching.py lines 18-84).
It ignores both text arguments and returns a fixed literal dict. -/
def mock_ai_matching (_resume_text : String) (_jd_text : String) : MockResult :=
  { match_score := 85.5
    fit_category := "Excellent Match"
    jd_extracted := JValue.jobj [
      ("position", JValue.jstr "Software Engineer"),
      ("experience_required", JValue.jobj [
        ("min_years", JValue.jnum 3),
        ("max_years", JValue.jnum 5),
        ("type", JValue.jstr "Software Development")]),
      ("required_skills", JValue.jarr [JValue.jstr "Python", JValue.jstr "FastAPI",
        JValue.jstr "MongoDB"]),
      ("preferred_skills", JValue.jarr [JValue.jstr "AWS", JValue.jstr "Docker"]),
      ("education", JValue.jstr "Bachelor\x27s in Computer Science"),
      ("location", JValue.jstr "Remote"),
      ("job_type", JValue.jstr "Full-time"),
      ("responsibilities", JValue.jarr [JValue.jstr "Develop APIs",
        JValue.jstr "Write tests", JValue.jstr "Code reviews"])]
    resume_extracted := JValue.jobj [
      ("candidate_name", JValue.jstr "John Doe"),
      ("email", JValue.jstr "john@example.com"),
      ("phone", JValue.jstr "+1-234-567-8900"),
      ("location", JValue.jstr "San Francisco, CA"),
      ("current_position", JValue.jstr "Senior Software Engineer"),
      ("total_experience", JValue.jnum 5),
      ("relevant_experience", JValue.jnum 4.5),
      ("skills_matched", JValue.jarr [JValue.jstr "Python", JValue.jstr "FastAPI",
        JValue.jstr "MongoDB", JValue.jstr "AWS"]),
      ("skills_missing", JValue.jarr []),
      ("education", JValue.jobj [
        ("degree", JValue.jstr "B.S. Computer Science"),
        ("institution", JValue.jstr "Stanford University"),
        ("year", JValue.jnum 2018),
        ("grade", JValue.jstr "3.8/4.0")]),
      ("certifications", JValue.jarr [JValue.jstr "AWS Certified"]),
      ("work_history", JValue.jarr [JValue.jobj [
        ("title", JValue.jstr "Senior Software Engineer"),
        ("company", JValue.jstr "Tech Corp"),
        ("duration", JValue.jstr "3 years"),
        ("technologies", JValue.jarr [JValue.jstr "Python", JValue.jstr "FastAPI",
          JValue.jstr "AWS"])]]),
      ("key_achievements", JValue.jarr [JValue.jstr "Led team of 5 developers",
        JValue.jstr "Reduced API latency by 40%"])]
    match_breakdown := JValue.jobj [
      ("skills_match", JValue.jnum 95),
      ("experience_match", JValue.jnum 90),
      ("education_match", JValue.jnum 100),
      ("location_match", JValue.jnum 85),
      ("cultural_fit", JValue.jnum 80),
      ("overall_compatibility", JValue.jnum 85.5)]
    selection_reason := "HIGHLY RECOMMENDED\n\nSTRENGTHS:\n✅ Strong technical skills match\n✅ Exceeds experience requirements\n✅ Relevant education background\n\nThis candidate is an excellent fit for the position."
    confidence_score := 92
    processing_duration_ms := 2500 }

/-- One `{resume_id, resume_text}` element of the outbound batch. -/
structure ResumeIn where
  resume_id : String
  resume_text : String
deriving DecidableEq, Repr

/-- One per-resume entry of the agent response.  Fields other than
`resume_id` are read with `.get(..., default)` in the Python code, hence
they are `Option`s here. -/
structure AgentResult where
  resume_id : String
  match_score : Option ℚ := none
  fit_category : Option String := none
  jd_extracted : Option JValue := none
  resume_extracted : Option JValue := none
  match_breakdown : Option JValue := none
  selection_reason : Option String := none
  confidence_score : Option JValue := none
  processing_duration_ms : Option ℕ := none

/-- The `{workflow_id, results, processing_time_ms}` response shape.  The mock
fallback builds no `processing_time_ms` key, hence the `Option`. -/
structure BatchResponse where
  workflow_id : String
  results : List AgentResult
  processing_time_ms : Option ℕ := none

/-- The `{"resume_id": ..., **mock_ai_matching(...)}` entry built by the
disabled-agent fallback of `call_ai_agent_batch` (lines 101-110). -/
def mockBatchEntry (jd_text : String) (r : ResumeIn) : AgentResult :=
  let m := mock_ai_matching r.resume_text jd_text
  { resume_id := r.resume_id
    match_score := some m.match_score
    fit_category := some m.fit_category
    jd_extracted := some m.jd_extracted
    resume_extracted := some m.resume_extracted
    match_breakdown := some m.match_breakdown
    selection_reason := some m.selection_reason
    confidence_score := some (JValue.jnum m.confidence_score)
    processing_duration_ms := some m.processing_duration_ms }

/-- Oracle for the single outbound HTTP POST of `call_ai_agent_batch`:
either a transport failure, or a response with a status code, a raw text
body, and the outcome of JSON-parsing that body. -/
inductive NetOutcome where
  | timeout
  | connectError
  | otherTransport (msg : String)
  | response (status : ℕ) (text : String) (parsed : Except String BatchResponse)

/-- Embedding of `call_ai_agent_batch` (routers/matching.py lines 86-167).
When the agent is disabled the mock fallback is used and no network oracle is
consulted.  Exceptions raised in the `try` body (non-200 status, JSON parse
failure) are re-wrapped by the generic `except Exception` handler with the
`"AI Agent error: "` prefix; the timeout/connect handlers raise fresh
messages that are not re-wrapped. -/
def call_ai_agent_batch (enabled : Bool) (url : String) (net : NetOutcome)
    (workflow_id : String) (jd_text : String) (resumes : List ResumeIn) :
    Except String BatchResponse :=
  if enabled = false then
    Except.ok { workflow_id := workflow_id
                results := resumes.map (mockBatchEntry jd_text)
                processing_time_ms := none }
  else
    match net with
    | NetOutcome.timeout =>
        Except.error "AI Agent timeout - processing took too long"
    | NetOutcome.connectError =>
        Except.error ("Cannot connect to AI Agent at " ++ url ++ " - is it running?")
    | NetOutcome.otherTransport msg =>
        Except.error ("AI Agent error: " ++ msg)
    | NetOutcome.response status text parsed =>
        if status = 200 then
          match parsed with
          | Except.ok body => Except.ok body
          | Except.error jsonErr =>
              Except.error ("AI Agent error: Failed to parse AI Agent JSON response: " ++ jsonErr)
        else
          Except.error ("AI Agent error: AI Agent returned error: " ++ toString status ++ " - " ++ text.take 500)

/-- A resume document (`resume` collection): the fields the matching and
workflow code reads. -/
structure Resume where
  id : String
  text : String
deriving DecidableEq, Repr

/-- A job-description document (`JobDescription` collection): custom id,
`designation`, `description`. -/
structure JD where
  id : String
  designation : String
  description : String
deriving DecidableEq, Repr

/-- A `resume_result` document as written by the batch loop
(routers/matching.py lines 355-368); `docId` models the Mongo `_id`. -/
structure MatchResult where
  docId : ℕ
  resume_id : String
  jd_id : String
  workflow_id : Option String := none
  match_score : ℚ
  fit_category : String
  jd_extracted : JValue
  resume_extracted : JValue
  match_breakdown : JValue
  selection_reason : String
  agent_version : String
  processing_duration_ms : ℕ
  confidence_score : JValue
  timestamp : ℕ

/-- One entry of a workflow document's `agents` array. -/
structure AgentStage where
  agent_id : String
  name : String
  status : String
  is_ai_agent : Bool
  started_at : Option ℕ := none
  completed_at : Option ℕ := none
  duration_ms : Option ℕ := none
  error : Option String := none
deriving DecidableEq, Repr

/-- The `progress` sub-document of a workflow record. -/
structure Progress where
  completed_agents : ℕ
  total_agents : ℕ
  percentage : ℕ
deriving DecidableEq, Repr

/-- The `metrics` sub-document of a workflow record. -/
structure WMetrics where
  total_candidates : ℕ
  processing_time_ms : ℕ
  match_rate : ℕ
  top_matches : ℕ
deriving DecidableEq, Repr

/-- A `workflow_executions` document (routers/matching.py lines 276-318
plus the later status updates). -/
structure WorkflowExecution where
  docId : ℕ
  workflow_id : String
  jd_id : String
  jd_title : String
  status : String
  started_by : String
  started_at : ℕ
  completed_at : Option ℕ := none
  resume_ids : List String
  total_resumes : ℕ
  processed_resumes : ℕ
  agents : List AgentStage
  progress : Progress
  metrics : WMetrics
  error : Option String := none
deriving DecidableEq, Repr

/-- An `audit_logs` document; `details_duration` models the optional
`details.duration` field read by the status projection. -/
structure AuditLog where
  userId : String
  action : String
  resourceType : String
  resourceId : String
  success : Bool
  timestamp : ℕ
  details_duration : Option ℚ := none
deriving DecidableEq, Repr

/-- The MongoDB database: one list per collection, plus a counter that
models `_id` assignment on insert. -/
structure DB where
  resumes : List Resume := []
  jds : List JD := []
  results : List MatchResult := []
  workflows : List WorkflowExecution := []
  audit_logs : List AuditLog := []
  nextId : ℕ := 0

/-- `FREE_PLAN_RESUME_LIMIT` from database.py line 18. -/
def FREE_PLAN_RESUME_LIMIT : ℕ := 100

/-- The indexes `init_db` (database.py lines 73-78) creates on the
`resume_result` collection: key pattern plus uniqueness flag. -/
structure IndexSpec where
  keys : List (String × ℤ)
  unique : Bool
deriving DecidableEq, Repr

/-- Embedding of the `resume_result` index declarations of `init_db`
(database.py lines 73-78). -/
def resume_result_indexes : List IndexSpec := [
  { keys := [("resume_id", 1), ("jd_id", 1)], unique := true },
  { keys := [("match_score", -1)], unique := false },
  { keys := [("fit_category", 1)], unique := false },
  { keys := [("timestamp", -1)], unique := false },
  { keys := [("jd_id", 1), ("match_score", -1)], unique := false },
  { keys := [("workflow_id", 1)], unique := false }]

/-- Modelled from the spec: `crud.get_jd_by_id` (crud.py is not under the
sources) — find a JD by its custom id. -/
def get_jd_by_id (db : DB) (jdId : String) : Option JD :=
  db.jds.find? (fun j => j.id == jdId)

/-- Modelled from the spec: `crud.get_resume_by_id` — find a resume by id. -/
def get_resume_by_id (db : DB) (rid : String) : Option Resume :=
  db.resumes.find? (fun r => r.id == rid)

/-- Modelled from the spec: `crud.get_result_by_resume_jd` — find one match
result by the `(resume_id, jd_id)` compound filter. -/
def get_result_by_resume_jd (db : DB) (rid : String) (jdId : String) : Option MatchResult :=
  db.results.find? (fun r => r.resume_id == rid && r.jd_id == jdId)

/-- Modelled from the spec: `crud.delete_result` — delete a match result by
its document id. -/
def delete_result (db : DB) (docId : ℕ) : DB :=
  { db with results := db.results.filter (fun r => r.docId != docId) }

/-- Modelled from the spec: `crud.create_resume_result` — insert a match
result document, assigning the next `_id`. -/
def insert_result (db : DB) (doc : MatchResult) : DB :=
  { db with results := db.results ++ [doc], nextId := db.nextId + 1 }

/-- Modelled from the spec: `crud.create_audit_log` — append an audit
record. -/
def create_audit_log (db : DB) (log : AuditLog) : DB :=
  { db with audit_logs := db.audit_logs ++ [log] }

/-- Apply `f` to the first element satisfying `p` (Mongo `update_one`). -/
def updateFirstBy (p : α → Bool) (f : α → α) : List α → List α
  | [] => []
  | x :: xs => if p x then f x :: xs else x :: updateFirstBy p f xs

/-- Modelled from the spec: `crud.update_workflow_status` — update the
workflow record matching `workflow_id` with the given field changes. -/
def update_workflow_status (db : DB) (wid : String) (f : WorkflowExecution → WorkflowExecution) : DB :=
  { db with workflows := updateFirstBy (fun w => w.workflow_id == wid) f db.workflows }

/-- The body of the `POST /matching/batch` request. -/
structure MatchingBatchRequest where
  jd_id : String
  resume_ids : Option (List String) := none
deriving DecidableEq, Repr

/-- `resume_ids` resolution (routers/matching.py lines 259-263): a truthy
request list is used as-is; `None` or `[]` defaults to all resumes capped at
1000. -/
def resolvedResumeIds (db : DB) (req : MatchingBatchRequest) : List String :=
  match req.resume_ids with
  | some ids => if ids.isEmpty then (db.resumes.take 1000).map (fun r => r.id) else ids
  | none => (db.resumes.take 1000).map (fun r => r.id)

/-- The workflow id `f"WF-{int(datetime.utcnow().timestamp() * 1000)}"`
(routers/matching.py line 273), over the explicit epoch-millis clock. -/
def batchWid (nowMs : ℕ) : String := "WF-" ++ toString nowMs

/-- The workflow document created by `batch_match_resumes`
(routers/matching.py lines 276-318). -/
def mk_workflow_doc (docId : ℕ) (wid : String) (jdId : String) (jdTitle : String)
    (userId : String) (nowMs : ℕ) (rids : List String) : WorkflowExecution :=
  { docId := docId
    workflow_id := wid
    jd_id := jdId
    jd_title := jdTitle
    status := "in_progress"
    started_by := userId
    started_at := nowMs
    resume_ids := rids
    total_resumes := rids.length
    processed_resumes := 0
    agents := [
      { agent_id := "jd-reader", name := "JD Reader Agent",
        status := "completed", is_ai_agent := false },
      { agent_id := "resume-reader", name := "Resume Reader Agent",
        status := "completed", is_ai_agent := false },
      { agent_id := "hr-comparator", name := "HR Comparator Agent",
        status := "in_progress", is_ai_agent := true, started_at := some nowMs }]
    progress := { completed_agents := 2, total_agents := 3, percentage := 66 }
    metrics := { total_candidates := rids.length, processing_time_ms := 0,
                 match_rate := 0, top_matches := 0 } }

/-- The `resumes_data` fetch loop (routers/matching.py lines 327-334):
resumes that fail to fetch are silently skipped. -/
def resumesData (resumes : List Resume) (ids : List String) : List ResumeIn :=
  ids.filterMap (fun rid =>
    (resumes.find? (fun r => r.id == rid)).map
      (fun r => { resume_id := rid, resume_text := r.text }))

/-- The replacement `agents` array written on success
(routers/matching.py lines 396-417). -/
def completedAgents (nowMs : ℕ) (ptime : ℕ) : List AgentStage := [
  { agent_id := "jd-reader", name := "JD Reader Agent",
    status := "completed", is_ai_agent := false },
  { agent_id := "resume-reader", name := "Resume Reader Agent",
    status := "completed", is_ai_agent := false },
  { agent_id := "hr-comparator", name := "HR Comparator Agent",
    status := "completed", is_ai_agent := true,
    completed_at := some nowMs, duration_ms := some ptime }]

/-- The replacement `agents` array written on failure
(routers/matching.py lines 461-481). -/
def failedAgents (e : String) : List AgentStage := [
  { agent_id := "jd-reader", name := "JD Reader Agent",
    status := "completed", is_ai_agent := false },
  { agent_id := "resume-reader", name := "Resume Reader Agent",
    status := "completed", is_ai_agent := false },
  { agent_id := "hr-comparator", name := "HR Comparator Agent",
    status := "failed", is_ai_agent := true, error := some e }]

/-- The completion update dict (routers/matching.py lines 392-429). -/
def applyCompletedUpdate (nowMs : ℕ) (processed : ℕ) (ptime : ℕ) (totalCand : ℕ)
    (w : WorkflowExecution) : WorkflowExecution :=
  { w with status := "completed"
           completed_at := some nowMs
           processed_resumes := processed
           agents := completedAgents nowMs ptime
           progress := { completed_agents := 3, total_agents := 3, percentage := 100 }
           metrics := { total_candidates := totalCand, processing_time_ms := ptime,
                        match_rate := 100, top_matches := processed } }

/-- The failure update dict (routers/matching.py lines 458-482). -/
def applyFailedUpdate (e : String) (w : WorkflowExecution) : WorkflowExecution :=
  { w with status := "failed", error := some e, agents := failedAgents e }

/-- The `result_doc` built for one agent result
(routers/matching.py lines 355-368). -/
def mkBatchResultDoc (docId : ℕ) (jdId : String) (wid : String) (ptime : ℕ)
    (nowMs : ℕ) (r : AgentResult) : MatchResult :=
  { docId := docId
    resume_id := r.resume_id
    jd_id := jdId
    workflow_id := some wid
    match_score := r.match_score.getD 0
    fit_category := r.fit_category.getD "Unknown"
    jd_extracted := r.jd_extracted.getD (JValue.jobj [])
    resume_extracted := r.resume_extracted.getD (JValue.jobj [])
    match_breakdown := r.match_breakdown.getD (JValue.jobj [])
    selection_reason := r.selection_reason.getD ""
    agent_version := "v1.0.0"
    processing_duration_ms := ptime
    confidence_score := r.confidence_score.getD (JValue.jstr "Unknown")
    timestamp := nowMs }

/-- One iteration of the save loop (routers/matching.py lines 352-387):
look up any existing result for `(resume_id, jd_id)`, delete it, then insert
the new document.  `ok` is the per-item persistence oracle: `false` means
`create_resume_result` raised, which the loop catches (the preceding delete
has already happened). -/
def saveItem (jdId : String) (wid : String) (ptime : ℕ) (nowMs : ℕ) (ok : Bool)
    (db : DB) (r : AgentResult) : DB :=
  let db1 := match get_result_by_resume_jd db r.resume_id jdId with
    | some ex => delete_result db ex.docId
    | none => db
  if ok then insert_result db1 (mkBatchResultDoc db1.nextId jdId wid ptime nowMs r) else db1

/-- The whole reconciliation loop: returns the new state with the
`processed_count` and `failed_count` tallies of routers/matching.py
lines 348-389. -/
def saveResults (jdId : String) (wid : String) (ptime : ℕ) (nowMs : ℕ)
    (saveOk : ℕ → Bool) : DB → ℕ → List AgentResult → DB × ℕ × ℕ
  | db, _, [] => (db, 0, 0)
  | db, idx, r :: rs =>
    let db1 := saveItem jdId wid ptime nowMs (saveOk idx) db r
    let rest := saveResults jdId wid ptime nowMs saveOk db1 (idx + 1) rs
    (rest.1, (if saveOk idx then 1 else 0) + rest.2.1, (if saveOk idx then 0 else 1) + rest.2.2)

/-- Number of item indices below `n` (offset by `idx`) whose persistence the
`saveOk` oracle fails. -/
def failedSaveCount (saveOk : ℕ → Bool) : ℕ → ℕ → ℕ
  | _, 0 => 0
  | idx, n + 1 => (if saveOk idx then 0 else 1) + failedSaveCount saveOk (idx + 1) n

/-- An `HTTPException`: status code and detail string. -/
structure HTTPError where
  status : ℕ
  detail : String
deriving DecidableEq, Repr

/-- The `data` sub-object of the batch endpoint's success response. -/
structure BatchData where
  workflow_id : String
  jd_id : String
  total_resumes : ℕ
  processed_resumes : ℕ
  status : String
deriving DecidableEq, Repr

/-- The success response of the batch endpoint (lines 444-454). -/
structure BatchMessage where
  success : Bool
  message : String
  data : BatchData
deriving DecidableEq, Repr

/-- Result of one invocation of the batch endpoint: the new database state
and the HTTP response (success body or raised `HTTPException`). -/
structure BatchOutcome where
  db : DB
  resp : Except HTTPError BatchMessage

/-- Embedding of `batch_match_resumes` (routers/matching.py lines 240-489).
The clock, agent configuration, network outcome and per-item persistence
oracle are explicit parameters.  Reading the resume texts after the workflow
insert is done against `db.resumes`, which the insert does not touch. -/
def batch_match_resumes (db : DB) (req : MatchingBatchRequest) (userId : String)
    (nowMs : ℕ) (enabled : Bool) (url : String) (net : NetOutcome)
    (saveOk : ℕ → Bool) : BatchOutcome :=
  match get_jd_by_id db req.jd_id with
  | none => { db := db, resp := Except.error { status := 404, detail := "Job Description not found" } }
  | some jd =>
    let resume_ids := resolvedResumeIds db req
    if FREE_PLAN_RESUME_LIMIT < resume_ids.length then
      { db := db
        resp := Except.error
          { status := 400
            detail := "Maximum " ++ toString FREE_PLAN_RESUME_LIMIT ++ " resumes allowed per workflow." } }
    else
      let wid := batchWid nowMs
      let wdoc := mk_workflow_doc db.nextId wid req.jd_id jd.designation userId nowMs resume_ids
      let db1 : DB := { db with workflows := db.workflows ++ [wdoc], nextId := db.nextId + 1 }
      let rdata := resumesData db.resumes resume_ids
      match call_ai_agent_batch enabled url net wid jd.description rdata with
      | Except.ok resp =>
        let ptime := resp.processing_time_ms.getD 0
        let saved := saveResults req.jd_id wid ptime nowMs saveOk db1 0 resp.results
        let db2 := update_workflow_status saved.1 wid
          (applyCompletedUpdate nowMs saved.2.1 ptime resume_ids.length)
        let db3 := create_audit_log db2
          { userId := userId, action := "run_matching", resourceType := "workflow_execution",
            resourceId := wid, success := true, timestamp := nowMs }
        { db := db3
          resp := Except.ok {
            success := true
            message := "AI processing completed for " ++ toString saved.2.1 ++ " resumes"
            data := { workflow_id := wid, jd_id := req.jd_id,
                      total_resumes := resume_ids.length,
                      processed_resumes := saved.2.1, status := "completed" } } }
      | Except.error e =>
        let db2 := update_workflow_status db1 wid (applyFailedUpdate e)
        { db := db2
          resp := Except.error { status := 500, detail := "AI Agent error: " ++ e } }

/-- Look a workflow record up by `workflow_id`. -/
def findWorkflow (db : DB) (wid : String) : Option WorkflowExecution :=
  db.workflows.find? (fun w => w.workflow_id == wid)

/-- Python `int(...)` on a rational: truncation toward zero. -/
def pyInt (q : ℚ) : ℤ := if 0 ≤ q then q.floor else -((-q).floor)

/-- Model of the Python `f"{x:.1f}"` one-decimal rendering, over `ℚ`
(rounding half up; the exact tie-breaking of float formatting is immaterial
to every property below). -/
def fmt1 (q : ℚ) : String :=
  let n : ℤ := (q * 10 + 1 / 2).floor
  toString (n / 10) ++ "." ++ toString (n % 10)

/-- Abstract rendering of `datetime.isoformat()` for model timestamps. -/
def isoformat (t : ℕ) : String := toString t

/-- Python `pat in s` substring test. -/
def strContains (s pat : String) : Bool := (s.splitOn pat).length != 1

/-- Stable descending insertion by `timestamp` (Mongo `sort("timestamp", -1)`). -/
def insertLogDesc (x : AuditLog) : List AuditLog → List AuditLog
  | [] => [x]
  | y :: ys => if y.timestamp ≤ x.timestamp then x :: y :: ys else y :: insertLogDesc x ys

/-- Sort audit logs by timestamp, newest first. -/
def sortLogsDesc : List AuditLog → List AuditLog
  | [] => []
  | x :: xs => insertLogDesc x (sortLogsDesc xs)

/-- The `recent_logs` query (routers/workflow.py lines 70-74): newest 20
audit logs. -/
def recentLogs (db : DB) : List AuditLog := (sortLogsDesc db.audit_logs).take 20

/-- The `find_one({}, sort=[("started_at", -1)])` selection
(routers/workflow.py lines 30-33): the most recently started workflow. -/
def latestWorkflow : List WorkflowExecution → Option WorkflowExecution
  | [] => none
  | w :: ws =>
    match latestWorkflow ws with
    | none => some w
    | some m => if w.started_at < m.started_at then some m else some w

/-- The match results visible to the projection for workflow `w`
(routers/workflow.py lines 52-55 and 98-102): results whose `resume_id` is
in the workflow's scope and whose `jd_id` is the workflow's JD. -/
def matchesFor (db : DB) (w : WorkflowExecution) : List MatchResult :=
  db.results.filter (fun r => w.resume_ids.contains r.resume_id && r.jd_id == w.jd_id)

/-- `avg_processing_time` (routers/workflow.py lines 89-94). -/
def avgDuration (logs : List AuditLog) : ℚ :=
  let ds := logs.filterMap (fun l => l.details_duration)
  if ds.isEmpty then 0 else ds.sum / (ds.length : ℚ)

/-- Stage-specific `metrics` sub-dicts of the three agent entries in the
status snapshot (routers/workflow.py lines 130-133, 147-151, 191-196). -/
inductive StageMetrics where
  | jdReader (jdsProcessed : ℕ) (criteriaExtracted : String)
  | resumeReader (candidatesProcessed : ℕ) (structuredProfiles : ℕ) (completenessScore : String)
  | hrComparator (candidateProfiles : ℕ) (candidatesScored : ℕ) (highMatches : ℕ) (topMatches : String)
deriving DecidableEq, Repr

/-- One agent entry of the status snapshot.  Keys that the error-path dict
omits are `Option`s set to `none` there. -/
structure AgentView where
  id : String
  name : String
  status : String
  timestamp : Option String := none
  duration : Option String := none
  description : String
  confidence : Option ℚ := none
  is_ai_agent : Bool
  metrics : Option StageMetrics := none
deriving DecidableEq, Repr

/-- The `metrics` dict of the status snapshot; `bestFit`/`partialFit`/`notFit`
are absent from the error-path dict, hence `Option`. -/
structure SnapMetrics where
  totalCandidates : ℕ
  processingTime : String
  matchRate : String
  topMatches : ℕ
  bestFit : Option ℕ := none
  partialFit : Option ℕ := none
  notFit : Option ℕ := none
deriving DecidableEq, Repr

/-- The `progress` dict of the status snapshot. -/
structure SnapProgress where
  completed : ℕ
  total : ℕ
  percentage : ℤ
deriving DecidableEq, Repr

/-- The full status snapshot returned by `GET /workflow/status`. -/
structure Snapshot where
  success : Bool
  status : String
  agents : List AgentView
  metrics : SnapMetrics
  progress : SnapProgress
  monitoring : Bool
  workflowId : Option String := none
  jdId : Option String := none
  jdTitle : Option String := none
  error : Option String := none
deriving DecidableEq, Repr

/-- The message of the `AttributeError` hit at routers/workflow.py line 206
when no workflow exists (`recent_workflow` is `None` and `.get` is called on
it); the exact text is immaterial, only that the `except` path fires. -/
def noneGetErrMsg : String := "AttributeError: NoneType object has no attribute get"

/-- The `try` body of `get_workflow_status` (routers/workflow.py
lines 28-249).  The `jd_id` parameter is rebound from the selected workflow
(or `None`) before any use, so it is ignored; with no workflow the body
raises at line 206 (`recent_workflow.get("metrics", {})` on `None`). -/
def get_workflow_status_body (db : DB) (_jdParam : Option String) : Except String Snapshot :=
  let logs := recentLogs db
  let avg := avgDuration logs
  match latestWorkflow db.workflows with
  | none => Except.error noneGetErrMsg
  | some w =>
    let total_resumes := w.resume_ids.length
    let total_jds : ℕ := if w.jd_id ≠ "" then 1 else 0
    let matchList := matchesFor db w
    let total_matches := matchList.length
    let high := matchList.filter (fun m => decide ((80 : ℚ) ≤ m.match_score))
    let match_rate : ℚ :=
      if matchList.isEmpty then 0 else ((high.length : ℚ) / (matchList.length : ℚ)) * 100
    let bestFit := (matchList.filter (fun m => decide ((80 : ℚ) ≤ m.match_score))).length
    let partialFit := (matchList.filter
      (fun m => decide ((50 : ℚ) ≤ m.match_score) && decide (m.match_score < (80 : ℚ)))).length
    let notFit := (matchList.filter (fun m => decide (m.match_score < (50 : ℚ)))).length
    let jd_logs := logs.filter
      (fun l => strContains l.action.toLower "job" || strContains l.action.toLower "jd")
    let resume_logs := logs.filter
      (fun l => strContains l.action.toLower "resume" && strContains l.action.toLower "upload")
    let match_logs := logs.filter (fun l => strContains l.action.toLower "match")
    let jdView : AgentView := {
      id := "jd-reader", name := "JD Reader Agent"
      status := if 0 < total_jds then "completed" else "idle"
      timestamp := jd_logs.head?.map (fun l => isoformat l.timestamp)
      duration := if avg ≠ 0 ∧ 0 < total_jds then some (fmt1 (avg * (3 / 10)) ++ "s") else none
      description := if 0 < total_jds then
          "Parsed " ++ toString total_jds ++ " job description(s) and extracted requirements (Direct Parsing)"
        else "Waiting for JD upload"
      is_ai_agent := false
      metrics := some (StageMetrics.jdReader total_jds
        (if 0 < total_jds then "Complete" else "Pending")) }
    let resumeView : AgentView := {
      id := "resume-reader", name := "Resume Reader Agent"
      status := if 0 < total_resumes then "completed" else "idle"
      timestamp := resume_logs.head?.map (fun l => isoformat l.timestamp)
      duration := if avg ≠ 0 ∧ 0 < total_resumes then some (fmt1 (avg * (3 / 2)) ++ "s") else none
      description := if 0 < total_resumes then
          "Parsed " ++ toString total_resumes ++ " resume(s) and extracted candidate details (Direct Parsing)"
        else "Waiting for resumes"
      is_ai_agent := false
      metrics := some (StageMetrics.resumeReader total_resumes total_resumes
        (if 0 < total_resumes then
          toString (pyInt (((total_resumes : ℚ) / ((max total_resumes 1 : ℕ) : ℚ)) * 100)) ++ "%"
        else "0%")) }
    let hrStatus : String :=
      if 0 < total_matches then "completed"
      else if w.status = "in_progress" then "in-progress"
      else if w.status = "pending" ∧ 0 < total_resumes ∧ 0 < total_jds then "pending"
      else "idle"
    let hrDescription : String :=
      if 0 < total_matches then
        "AI-powered matching: Compared and scored " ++ toString total_matches ++ " candidate(s)"
      else if w.status = "in_progress" then
        "AI agent analyzing " ++ toString total_resumes ++ " candidates in real-time..."
      else if w.status = "pending" ∧ 0 < total_resumes ∧ 0 < total_jds then
        "Ready to start matching"
      else "Waiting for matching to start"
    let hrView : AgentView := {
      id := "hr-comparator", name := "HR Comparator Agent"
      status := hrStatus
      timestamp := match_logs.head?.map (fun l => isoformat l.timestamp)
      duration := if avg ≠ 0 ∧ 0 < total_matches then some (fmt1 (avg * 2) ++ "s") else none
      description := hrDescription
      is_ai_agent := true
      metrics := some (StageMetrics.hrComparator total_resumes total_matches high.length
        (if 0 < high.length then toString high.length ++ " candidates ready" else "Processing...")) }
    let agents := [jdView, resumeView, hrView]
    let completedCount := agents.countP (fun a => a.status == "completed")
    let overallProgress := pyInt (((completedCount : ℚ) / 3) * 100)
    let ptimeMs := w.metrics.processing_time_ms
    let tpt : ℚ := if 0 < ptimeMs then (ptimeMs : ℚ) / 1000 else 0
    let recent_jd := if w.jd_id ≠ "" then db.jds.find? (fun j => j.id == w.jd_id) else none
    Except.ok {
      success := true
      status := w.status
      agents := agents
      metrics := {
        totalCandidates := total_resumes
        processingTime := if 0 < tpt then fmt1 tpt ++ "s" else "0s"
        matchRate := if matchList.isEmpty then "0%" else toString (pyInt match_rate) ++ "%"
        topMatches := high.length
        bestFit := some bestFit
        partialFit := some partialFit
        notFit := some notFit }
      progress := { completed := completedCount, total := 3, percentage := overallProgress }
      monitoring := w.status == "in_progress" || w.status == "pending"
      workflowId := some w.workflow_id
      jdId := recent_jd.map (fun j => j.id)
      jdTitle := some (match recent_jd with | some j => j.designation | none => "Job Description")
      error := none }

/-- The fallback snapshot built by the `except` handler
(routers/workflow.py lines 251-274). -/
def errorSnapshot (e : String) : Snapshot :=
  { success := false
    status := "idle"
    agents := [
      { id := "jd-reader", name := "JD Reader Agent", status := "idle",
        description := "No data yet", is_ai_agent := false },
      { id := "resume-reader", name := "Resume Reader Agent", status := "idle",
        description := "No data yet", is_ai_agent := false },
      { id := "hr-comparator", name := "HR Comparator Agent", status := "idle",
        description := "No data yet", is_ai_agent := true }]
    metrics := { totalCandidates := 0, processingTime := "0s", matchRate := "0%", topMatches := 0 }
    progress := { completed := 0, total := 3, percentage := 0 }
    monitoring := false
    error := some e }

/-- Embedding of `get_workflow_status` (routers/workflow.py lines 13-274):
the whole body runs inside `try`; any raise is absorbed into the error
snapshot, so the endpoint is total. -/
def get_workflow_status (db : DB) (jdParam : Option String) : Snapshot :=
  match get_workflow_status_body db jdParam with
  | Except.ok s => s
  | Except.error e => errorSnapshot e

/-! ### Helper lemmas about the store operations -/

theorem updateFirstBy_append_of_none {α : Type} (p : α → Bool) (f : α → α)
    (l₁ l₂ : List α) (h : ∀ x ∈ l₁, p x = false) :
    updateFirstBy p f (l₁ ++ l₂) = l₁ ++ updateFirstBy p f l₂ := by
  induction l₁ with
  | nil => rfl
  | cons x xs ih =>
    have hx := h x (by simp)
    have hxs : ∀ y ∈ xs, p y = false := fun y hy => h y (by simp [hy])
    simp [updateFirstBy, hx, ih hxs]

theorem find?_append_of_none {α : Type} (p : α → Bool) (l₁ l₂ : List α)
    (h : ∀ x ∈ l₁, p x = false) : (l₁ ++ l₂).find? p = l₂.find? p := by
  induction l₁ with
  | nil => rfl
  | cons x xs ih =>
    have hx := h x (by simp)
    have hxs : ∀ y ∈ xs, p y = false := fun y hy => h y (by simp [hy])
    simp [List.find?_cons, hx, ih hxs]

theorem saveItem_workflows (jdId wid : String) (pt nowMs : ℕ) (ok : Bool)
    (db : DB) (r : AgentResult) :
    (saveItem jdId wid pt nowMs ok db r).workflows = db.workflows := by
  unfold saveItem
  cases hx : get_result_by_resume_jd db r.resume_id jdId <;>
    cases ok <;> simp [delete_result, insert_result]

theorem saveResults_workflows (jdId wid : String) (pt nowMs : ℕ) (ok : ℕ → Bool)
    (rs : List AgentResult) : ∀ (db : DB) (idx : ℕ),
    (saveResults jdId wid pt nowMs ok db idx rs).1.workflows = db.workflows := by
  induction rs with
  | nil => intro db idx; rfl
  | cons r rs ih =>
    intro db idx
    simp [saveResults, ih, saveItem_workflows]

theorem saveResults_failed (jdId wid : String) (pt nowMs : ℕ) (ok : ℕ → Bool)
    (rs : List AgentResult) : ∀ (db : DB) (idx : ℕ),
    (saveResults jdId wid pt nowMs ok db idx rs).2.2 = failedSaveCount ok idx rs.length := by
  induction rs with
  | nil => intro db idx; rfl
  | cons r rs ih =>
    intro db idx
    simp [saveResults, failedSaveCount, ih]

theorem saveResults_total (jdId wid : String) (pt nowMs : ℕ) (ok : ℕ → Bool)
    (rs : List AgentResult) : ∀ (db : DB) (idx : ℕ),
    (saveResults jdId wid pt nowMs ok db idx rs).2.1 +
      (saveResults jdId wid pt nowMs ok db idx rs).2.2 = rs.length := by
  induction rs with
  | nil => intro db idx; rfl
  | cons r rs ih =>
    intro db idx
    simp only [saveResults]
    have h := ih (saveItem jdId wid pt nowMs (ok idx) db r) (idx + 1)
    cases hok : ok idx <;> simp only [hok] at h ⊢ <;> simp <;> omega

theorem saveResults_processed (jdId wid : String) (pt nowMs : ℕ) (ok : ℕ → Bool)
    (rs : List AgentResult) (db : DB) (idx : ℕ) :
    (saveResults jdId wid pt nowMs ok db idx rs).2.1 =
      rs.length - failedSaveCount ok idx rs.length := by
  have h1 := saveResults_total jdId wid pt nowMs ok rs db idx
  have h2 := saveResults_failed jdId wid pt nowMs ok rs db idx
  omega

/-! ### The (resume_id, jd_id) uniqueness invariant -/

/-- Two match results do not collide on the `(resume_id, jd_id)` pair. -/
def distinctPair (a b : MatchResult) : Prop :=
  ¬ (a.resume_id = b.resume_id ∧ a.jd_id = b.jd_id)

theorem distinctPair_symmetric : Symmetric distinctPair :=
  fun _ _ h hc => h ⟨hc.1.symm, hc.2.symm⟩

/-- The store invariant: at most one match result per `(resume_id, jd_id)`
pair (the `resume_result` unique index). -/
def atMostOnePerPair (l : List MatchResult) : Prop := l.Pairwise distinctPair

theorem saveItem_unique (jdId wid : String) (pt nowMs : ℕ) (ok : Bool)
    (db : DB) (r : AgentResult) (h : atMostOnePerPair db.results) :
    atMostOnePerPair (saveItem jdId wid pt nowMs ok db r).results := by
  unfold saveItem
  cases hx : get_result_by_resume_jd db r.resume_id jdId with
  | none =>
    cases ok with
    | false => simpa using h
    | true =>
      simp only [insert_result, if_pos]
      refine List.pairwise_append.2 ⟨h, by simp [atMostOnePerPair], ?_⟩
      intro a ha b hb
      simp only [List.mem_singleton] at hb
      subst hb
      intro hc
      have hnone := List.find?_eq_none.mp hx a ha
      simp only [get_result_by_resume_jd] at hx
      have hnone2 := List.find?_eq_none.mp hx a ha
      apply hnone2
      simp [mkBatchResultDoc] at hc
      simp [hc.1, hc.2]
  | some ex =>
    have hx' : db.results.find? (fun x => x.resume_id == r.resume_id && x.jd_id == jdId) = some ex := hx
    have hexMem : ex ∈ db.results := List.mem_of_find?_eq_some hx'
    have hexP := List.find?_some hx'
    simp only [Bool.and_eq_true, beq_iff_eq] at hexP
    have hfilter : atMostOnePerPair (db.results.filter (fun x => x.docId != ex.docId)) :=
      List.Pairwise.filter _ h
    cases ok with
    | false => simpa [delete_result] using hfilter
    | true =>
      simp only [insert_result, delete_result, if_pos]
      refine List.pairwise_append.2 ⟨hfilter, by simp [atMostOnePerPair], ?_⟩
      intro a ha b hb
      simp only [List.mem_singleton] at hb
      subst hb
      intro hc
      obtain ⟨haMem, haId⟩ := List.mem_filter.mp ha
      have hane : a ≠ ex := by
        intro he
        subst he
        simp at haId
      have hrel := List.Pairwise.forall distinctPair_symmetric h haMem hexMem hane
      simp [mkBatchResultDoc] at hc
      exact hrel ⟨hc.1.trans hexP.1.symm, hc.2.trans hexP.2.symm⟩

theorem saveResults_unique (jdId wid : String) (pt nowMs : ℕ) (ok : ℕ → Bool)
    (rs : List AgentResult) : ∀ (db : DB) (idx : ℕ),
    atMostOnePerPair db.results →
    atMostOnePerPair (saveResults jdId wid pt nowMs ok db idx rs).1.results := by
  induction rs with
  | nil => intro db idx h; exact h
  | cons r rs ih =>
    intro db idx h
    exact ih (saveItem jdId wid pt nowMs (ok idx) db r) (idx + 1)
      (saveItem_unique jdId wid pt nowMs (ok idx) db r h)

/-! ### Claims C9 and C10: the mock fallback -/

/-- C9: for every input, with the external scoring capability disabled, the
batch scoring client returns (never raises) a response carrying the same
`workflow_id` and one mock-scored entry per input resume, independently of
the network oracle (no network call). -/
theorem disabled_agent_uses_mock (url : String) (net : NetOutcome)
    (workflow_id jd_text : String) (resumes : List ResumeIn) :
    call_ai_agent_batch false url net workflow_id jd_text resumes =
      Except.ok { workflow_id := workflow_id
                  results := resumes.map (mockBatchEntry jd_text)
                  processing_time_ms := none } ∧
    (∀ net2 : NetOutcome,
      call_ai_agent_batch false url net workflow_id jd_text resumes =
        call_ai_agent_batch false url net2 workflow_id jd_text resumes) ∧
    ∃ body, call_ai_agent_batch false url net workflow_id jd_text resumes = Except.ok body ∧
      body.workflow_id = workflow_id ∧ body.results.length = resumes.length := by
  refine ⟨rfl, fun _ => rfl, _, rfl, rfl, by simp⟩

/-- C10: the local mock scorer is a constant function of its two text
inputs (score 85.5, category "Excellent Match", fixed extracted fields and
breakdown), so in mock mode every entry of a batch response carries the same
score and fit category. -/
theorem mock_ai_matching_constant :
    (∀ rt jt rt2 jt2 : String, mock_ai_matching rt jt = mock_ai_matching rt2 jt2) ∧
    (∀ rt jt : String, (mock_ai_matching rt jt).match_score = 85.5 ∧
      (mock_ai_matching rt jt).fit_category = "Excellent Match") ∧
    (∀ (url : String) (net : NetOutcome) (wid jdt : String) (rs : List ResumeIn)
      (body : BatchResponse),
      call_ai_agent_batch false url net wid jdt rs = Except.ok body →
      ∀ x ∈ body.results, x.match_score = some 85.5 ∧ x.fit_category = some "Excellent Match") := by
  refine ⟨fun _ _ _ _ => rfl, fun _ _ => ⟨rfl, rfl⟩, ?_⟩
  intro url net wid jdt rs body hb x hx
  have hb2 : (Except.ok { workflow_id := wid
                          results := rs.map (mockBatchEntry jdt)
                          processing_time_ms := none } : Except String BatchResponse) =
      Except.ok body := hb
  obtain rfl := (Except.ok.inj hb2).symm
  simp only [List.mem_map] at hx
  obtain ⟨r, _, rfl⟩ := hx
  exact ⟨rfl, rfl⟩

/-- Example resume payload used by concrete witnesses. -/
def exRIn : ResumeIn := { resume_id := "R1", resume_text := "alpha" }

/-- Witness for C10 at a concrete input. -/
theorem mock_ai_matching_constant_witness :
    (mockBatchEntry "jd" exRIn).match_score = some 85.5 ∧
    (mockBatchEntry "jd" exRIn).fit_category = some "Excellent Match" :=
  mock_ai_matching_constant.2.2 "" NetOutcome.timeout "WF" "jd" [exRIn] _ rfl
    (mockBatchEntry "jd" exRIn) (by simp)

/-! ### Claims C6, C7, C8: the status projection -/

/-- Example JD the example workflow below targets. -/
def exJd1 : JD := { id := "JD-1", designation := "SWE", description := "jd text" }

/-- A second JD, requested (and ignored) in the C6 witness. -/
def exJdA : JD := { id := "JD-A", designation := "Other", description := "other jd" }

/-- A completed example workflow over resumes R1-R3 and JD-1. -/
def exW : WorkflowExecution :=
  { docId := 0, workflow_id := "WF-B", jd_id := "JD-1", jd_title := "SWE",
    status := "completed", started_by := "u1", started_at := 5,
    resume_ids := ["R1", "R2", "R3"], total_resumes := 3, processed_resumes := 3,
    agents := [],
    progress := { completed_agents := 3, total_agents := 3, percentage := 100 },
    metrics := { total_candidates := 3, processing_time_ms := 0, match_rate := 100, top_matches := 1 } }

/-- A stored match result with the given id, resume and score, for JD-1. -/
def exMatchRes (i : ℕ) (rid : String) (s : ℚ) : MatchResult :=
  { docId := i, resume_id := rid, jd_id := "JD-1", workflow_id := some "WF-B",
    match_score := s, fit_category := "x", jd_extracted := JValue.jobj [],
    resume_extracted := JValue.jobj [], match_breakdown := JValue.jobj [],
    selection_reason := "", agent_version := "v1.0.0", processing_duration_ms := 0,
    confidence_score := JValue.jnum 1, timestamp := 0 }

/-- Example database with one completed workflow and scores [90, 60, 30]. -/
def exStatusDb : DB :=
  { jds := [exJdA, exJd1],
    results := [exMatchRes 1 "R1" 90, exMatchRes 2 "R2" 60, exMatchRes 3 "R3" 30],
    workflows := [exW] }

/-- The empty database. -/
def emptyDB : DB := { }

/-- C6: the status projection's output never depends on the `jd_id`
argument; the workflow reported on is always the most-recently-started one,
so (concretely) requesting JD-A can yield a snapshot describing JD-1. -/
theorem status_ignores_jd_param :
    (∀ (db : DB) (j1 j2 : Option String),
      get_workflow_status db j1 = get_workflow_status db j2) ∧
    (∀ (db : DB) (jdParam : Option String) (w : WorkflowExecution),
      latestWorkflow db.workflows = some w →
      (get_workflow_status db jdParam).workflowId = some w.workflow_id) ∧
    ((get_workflow_status exStatusDb (some "JD-A")).jdId = some "JD-1" ∧
     (get_workflow_status exStatusDb (some "JD-A")).workflowId = some "WF-B") := by
  refine ⟨fun db j1 j2 => rfl, ?_, by decide, by decide⟩
  intro db jdParam w h
  simp only [get_workflow_status, get_workflow_status_body, h]

/-- Witness for C6 at a concrete database. -/
theorem status_ignores_jd_param_witness :
    (get_workflow_status exStatusDb (some "JD-A")).workflowId = some exW.workflow_id :=
  status_ignores_jd_param.2.1 exStatusDb (some "JD-A") exW rfl

/-- C7: the snapshot metrics re-bucket every visible match score
(`>= 80` best, `[50, 80)` partial, `< 50` not fit) and render the match rate
as the integer percentage of matches scoring at least 80. -/
theorem status_fit_bucketing (db : DB) (jdParam : Option String)
    (w : WorkflowExecution) (h : latestWorkflow db.workflows = some w) :
    (get_workflow_status db jdParam).metrics.bestFit =
      some ((matchesFor db w).filter (fun m => decide ((80 : ℚ) ≤ m.match_score))).length ∧
    (get_workflow_status db jdParam).metrics.partialFit =
      some ((matchesFor db w).filter
        (fun m => decide ((50 : ℚ) ≤ m.match_score) && decide (m.match_score < (80 : ℚ)))).length ∧
    (get_workflow_status db jdParam).metrics.notFit =
      some ((matchesFor db w).filter (fun m => decide (m.match_score < (50 : ℚ)))).length ∧
    (get_workflow_status db jdParam).metrics.matchRate =
      (if (matchesFor db w).isEmpty then "0%"
       else toString (pyInt ((((matchesFor db w).filter
              (fun m => decide ((80 : ℚ) ≤ m.match_score))).length : ℚ) /
            ((matchesFor db w).length : ℚ) * 100)) ++ "%") := by
  refine ⟨?_, ?_, ?_, ?_⟩ <;>
    simp only [get_workflow_status, get_workflow_status_body, h] <;>
    cases hemp : (matchesFor db w).isEmpty <;> simp [hemp]

/-- Witness for C7: scores [90, 60, 30] give counts 1/1/1 and rate 33%. -/
theorem status_fit_bucketing_witness :
    latestWorkflow exStatusDb.workflows = some exW ∧
    (get_workflow_status exStatusDb none).metrics.bestFit = some 1 ∧
    (get_workflow_status exStatusDb none).metrics.partialFit = some 1 ∧
    (get_workflow_status exStatusDb none).metrics.notFit = some 1 ∧
    (get_workflow_status exStatusDb none).metrics.matchRate = "33%" := by
  have h := status_fit_bucketing exStatusDb none exW rfl
  have hm : matchesFor exStatusDb exW =
      [exMatchRes 1 "R1" 90, exMatchRes 2 "R2" 60, exMatchRes 3 "R3" 30] := rfl
  refine ⟨rfl, h.1.trans (by decide), h.2.1.trans (by decide), h.2.2.1.trans (by decide), ?_⟩
  rw [h.2.2.2, hm]
  norm_num [exMatchRes, List.filter]
  have h33 : ((100 : ℚ) / 3).floor = 33 := by
    rw [Rat.floor_def', ← Rat.floor_def]
    norm_num
  simp only [pyInt]
  rw [if_pos (by positivity : (0 : ℚ) ≤ 100 / 3), h33]
  decide

/-- C8: the status projection is a total function of the state; with no
workflow in the store it returns the idle snapshot (all three stages idle,
zero metrics, monitoring off) via the absorbed internal fault, and every
body error is converted to the idle/error snapshot with `success = false`. -/
theorem status_projection_total (db : DB) (jdParam : Option String) :
    (db.workflows = [] → get_workflow_status db jdParam = errorSnapshot noneGetErrMsg) ∧
    (∀ e, get_workflow_status_body db jdParam = Except.error e →
      get_workflow_status db jdParam = errorSnapshot e) ∧
    (∀ e, (errorSnapshot e).success = false ∧ (errorSnapshot e).monitoring = false ∧
      (errorSnapshot e).agents.map (fun a => a.status) = ["idle", "idle", "idle"] ∧
      (errorSnapshot e).metrics =
        { totalCandidates := 0, processingTime := "0s", matchRate := "0%", topMatches := 0 } ∧
      (errorSnapshot e).progress = { completed := 0, total := 3, percentage := 0 } ∧
      (errorSnapshot e).error = some e) := by
  refine ⟨?_, ?_, fun e => ⟨rfl, rfl, rfl, rfl, rfl, rfl⟩⟩
  · intro hw
    simp only [get_workflow_status, get_workflow_status_body, hw]
    rfl
  · intro e he
    simp only [get_workflow_status, he]

/-- Witness for C8 at the empty database. -/
theorem status_projection_total_witness :
    get_workflow_status emptyDB none = errorSnapshot noneGetErrMsg :=
  (status_projection_total emptyDB none).1 rfl

/-! ### Claims C1-C5: the batch orchestrator -/

theorem updateFirstBy_singleton_pos {α : Type} (p : α → Bool) (f : α → α) (x : α)
    (h : p x = true) : updateFirstBy p f [x] = [f x] := by
  simp [updateFirstBy, h]

theorem find?_singleton_pos {α : Type} (p : α → Bool) (x : α) (h : p x = true) :
    [x].find? p = some x := by
  simp [List.find?_cons, h]

/-- C1: when the scoring client returns `N` results and persisting `k` of
them fails, each failure is caught and counted and the run still finishes
with the workflow record marked `completed` and `processed_resumes = N - k`
(continue-on-error). -/
theorem batch_continue_on_error (db : DB) (req : MatchingBatchRequest)
    (userId : String) (nowMs : ℕ) (enabled : Bool) (url : String) (net : NetOutcome)
    (saveOk : ℕ → Bool) (jd : JD) (resp : BatchResponse)
    (hjd : get_jd_by_id db req.jd_id = some jd)
    (hlen : ¬ FREE_PLAN_RESUME_LIMIT < (resolvedResumeIds db req).length)
    (hfresh : ∀ w ∈ db.workflows, (w.workflow_id == batchWid nowMs) = false)
    (hok : call_ai_agent_batch enabled url net (batchWid nowMs) jd.description
        (resumesData db.resumes (resolvedResumeIds db req)) = Except.ok resp) :
    ∃ wrec, findWorkflow (batch_match_resumes db req userId nowMs enabled url net saveOk).db
        (batchWid nowMs) = some wrec ∧
      wrec.status = "completed" ∧
      wrec.processed_resumes = resp.results.length - failedSaveCount saveOk 0 resp.results.length ∧
      ∃ msg, (batch_match_resumes db req userId nowMs enabled url net saveOk).resp = Except.ok msg ∧
        msg.data.status = "completed" ∧
        msg.data.processed_resumes =
          resp.results.length - failedSaveCount saveOk 0 resp.results.length := by
  unfold batch_match_resumes
  rw [hjd]
  simp only [if_neg hlen]
  rw [hok]
  simp only [findWorkflow, create_audit_log, update_workflow_status]
  rw [saveResults_workflows]
  rw [updateFirstBy_append_of_none _ _ _ _ hfresh]
  rw [find?_append_of_none _ _ _ hfresh]
  rw [updateFirstBy_singleton_pos _ _ _ (by simp [mk_workflow_doc])]
  rw [find?_singleton_pos _ _ (by simp [applyCompletedUpdate, mk_workflow_doc])]
  refine ⟨_, rfl, rfl, ?_, _, rfl, rfl, ?_⟩
  · exact saveResults_processed _ _ _ _ _ _ _ _
  · exact saveResults_processed _ _ _ _ _ _ _ _

/-- C2: when the scoring client raises, the workflow record is marked
`failed` with the error recorded on the record and on the `hr-comparator`
stage, the record is retained, no match result is created, and the error is
propagated as a single HTTP 500 failure. -/
theorem batch_scoring_failure (db : DB) (req : MatchingBatchRequest)
    (userId : String) (nowMs : ℕ) (enabled : Bool) (url : String) (net : NetOutcome)
    (saveOk : ℕ → Bool) (jd : JD) (e : String)
    (hjd : get_jd_by_id db req.jd_id = some jd)
    (hlen : ¬ FREE_PLAN_RESUME_LIMIT < (resolvedResumeIds db req).length)
    (hfresh : ∀ w ∈ db.workflows, (w.workflow_id == batchWid nowMs) = false)
    (herr : call_ai_agent_batch enabled url net (batchWid nowMs) jd.description
        (resumesData db.resumes (resolvedResumeIds db req)) = Except.error e) :
    ∃ wrec, findWorkflow (batch_match_resumes db req userId nowMs enabled url net saveOk).db
        (batchWid nowMs) = some wrec ∧
      wrec.status = "failed" ∧ wrec.error = some e ∧
      (∃ st ∈ wrec.agents, st.agent_id = "hr-comparator" ∧ st.status = "failed" ∧
        st.error = some e) ∧
      (batch_match_resumes db req userId nowMs enabled url net saveOk).db.results = db.results ∧
      (batch_match_resumes db req userId nowMs enabled url net saveOk).db.workflows.length =
        db.workflows.length + 1 ∧
      (batch_match_resumes db req userId nowMs enabled url net saveOk).resp =
        Except.error { status := 500, detail := "AI Agent error: " ++ e } := by
  unfold batch_match_resumes
  rw [hjd]
  simp only [if_neg hlen]
  rw [herr]
  simp only [findWorkflow, update_workflow_status]
  rw [updateFirstBy_append_of_none _ _ _ _ hfresh]
  rw [find?_append_of_none _ _ _ hfresh]
  rw [updateFirstBy_singleton_pos _ _ _ (by simp [mk_workflow_doc])]
  rw [find?_singleton_pos _ _ (by simp [applyFailedUpdate, mk_workflow_doc])]
  refine ⟨_, rfl, ?_, ?_, ?_, ?_, ?_, ?_⟩
  · rfl
  · rfl
  · exact ⟨{ agent_id := "hr-comparator", name := "HR Comparator Agent", status := "failed",
             is_ai_agent := true, error := some e },
           by simp [applyFailedUpdate, failedAgents], rfl, rfl, rfl⟩
  · trivial
  · simp
  · trivial

/-- C3: a batch request whose resolved resume id list exceeds the
configured limit fails with the 400 quota error and leaves the state
untouched (no workflow record is created). -/
theorem batch_over_limit_rejected (db : DB) (req : MatchingBatchRequest)
    (userId : String) (nowMs : ℕ) (enabled : Bool) (url : String) (net : NetOutcome)
    (saveOk : ℕ → Bool) (jd : JD)
    (hjd : get_jd_by_id db req.jd_id = some jd)
    (hlen : FREE_PLAN_RESUME_LIMIT < (resolvedResumeIds db req).length) :
    (batch_match_resumes db req userId nowMs enabled url net saveOk).db = db ∧
    (batch_match_resumes db req userId nowMs enabled url net saveOk).resp =
      Except.error
        { status := 400
          detail := "Maximum " ++ toString FREE_PLAN_RESUME_LIMIT ++ " resumes allowed per workflow." } := by
  unfold batch_match_resumes
  rw [hjd]
  simp only [if_pos hlen]
  exact ⟨trivial, trivial⟩

/-- C4: every batch run preserves the at-most-one-result-per
`(resume_id, jd_id)` invariant (each returned result deletes any existing
result for its pair before inserting the replacement), and `init_db`
declares the unique index on `(resume_id, jd_id)`. -/
theorem batch_replace_keeps_unique (db : DB) (req : MatchingBatchRequest)
    (userId : String) (nowMs : ℕ) (enabled : Bool) (url : String) (net : NetOutcome)
    (saveOk : ℕ → Bool) (h : atMostOnePerPair db.results) :
    atMostOnePerPair (batch_match_resumes db req userId nowMs enabled url net saveOk).db.results ∧
    { keys := [("resume_id", 1), ("jd_id", 1)], unique := true } ∈ resume_result_indexes := by
  refine ⟨?_, by decide⟩
  unfold batch_match_resumes
  cases hjd : get_jd_by_id db req.jd_id with
  | none => exact h
  | some jd =>
    by_cases hlen : FREE_PLAN_RESUME_LIMIT < (resolvedResumeIds db req).length
    · simp only [if_pos hlen]
      exact h
    · simp only [if_neg hlen]
      cases hcall : call_ai_agent_batch enabled url net (batchWid nowMs) jd.description
          (resumesData db.resumes (resolvedResumeIds db req)) with
      | ok resp =>
        simp only [create_audit_log, update_workflow_status]
        exact saveResults_unique _ _ _ _ _ _ _ _ h
      | error e => exact h

/-- C5: an accepted batch request creates exactly one workflow record; the
created document has workflow id `"WF-" + epoch_millis`, status
`in_progress`, stages jd-reader/resume-reader completed and hr-comparator
in-progress, and `total_resumes` equal to the resolved resume id count. -/
theorem batch_creates_one_workflow (db : DB) (req : MatchingBatchRequest)
    (userId : String) (nowMs : ℕ) (enabled : Bool) (url : String) (net : NetOutcome)
    (saveOk : ℕ → Bool) (jd : JD)
    (hjd : get_jd_by_id db req.jd_id = some jd)
    (hlen : ¬ FREE_PLAN_RESUME_LIMIT < (resolvedResumeIds db req).length)
    (hfresh : ∀ w ∈ db.workflows, (w.workflow_id == batchWid nowMs) = false) :
    (batch_match_resumes db req userId nowMs enabled url net saveOk).db.workflows.length =
      db.workflows.length + 1 ∧
    (batch_match_resumes db req userId nowMs enabled url net saveOk).db.workflows.countP
      (fun w => w.workflow_id == batchWid nowMs) = 1 ∧
    (mk_workflow_doc db.nextId (batchWid nowMs) req.jd_id jd.designation userId nowMs
      (resolvedResumeIds db req)).workflow_id = "WF-" ++ toString nowMs ∧
    (mk_workflow_doc db.nextId (batchWid nowMs) req.jd_id jd.designation userId nowMs
      (resolvedResumeIds db req)).status = "in_progress" ∧
    (mk_workflow_doc db.nextId (batchWid nowMs) req.jd_id jd.designation userId nowMs
      (resolvedResumeIds db req)).total_resumes = (resolvedResumeIds db req).length ∧
    (mk_workflow_doc db.nextId (batchWid nowMs) req.jd_id jd.designation userId nowMs
      (resolvedResumeIds db req)).agents.map (fun a => (a.agent_id, a.status)) =
      [("jd-reader", "completed"), ("resume-reader", "completed"),
       ("hr-comparator", "in_progress")] ∧
    ∃ wrec, findWorkflow (batch_match_resumes db req userId nowMs enabled url net saveOk).db
        (batchWid nowMs) = some wrec ∧
      wrec.workflow_id = batchWid nowMs ∧
      wrec.total_resumes = (resolvedResumeIds db req).length := by
  have hcount : db.workflows.countP (fun w => w.workflow_id == batchWid nowMs) = 0 :=
    List.countP_eq_zero.mpr (fun w hw => by simp [hfresh w hw])
  unfold batch_match_resumes
  rw [hjd]
  simp only [if_neg hlen]
  cases hcall : call_ai_agent_batch enabled url net (batchWid nowMs) jd.description
      (resumesData db.resumes (resolvedResumeIds db req)) with
  | ok resp =>
    simp only [findWorkflow, create_audit_log, update_workflow_status]
    rw [saveResults_workflows]
    rw [updateFirstBy_append_of_none _ _ _ _ hfresh]
    rw [find?_append_of_none _ _ _ hfresh]
    rw [updateFirstBy_singleton_pos _ _ _ (by simp [mk_workflow_doc])]
    rw [find?_singleton_pos _ _ (by simp [applyCompletedUpdate, mk_workflow_doc])]
    refine ⟨by simp, ?_, rfl, rfl, rfl, rfl, _, rfl, by simp [applyCompletedUpdate, mk_workflow_doc], rfl⟩
    rw [List.countP_append, hcount]
    simp [List.countP_cons, applyCompletedUpdate, mk_workflow_doc]
  | error e =>
    simp only [findWorkflow, update_workflow_status]
    rw [updateFirstBy_append_of_none _ _ _ _ hfresh]
    rw [find?_append_of_none _ _ _ hfresh]
    rw [updateFirstBy_singleton_pos _ _ _ (by simp [mk_workflow_doc])]
    rw [find?_singleton_pos _ _ (by simp [applyFailedUpdate, mk_workflow_doc])]
    refine ⟨by simp, ?_, rfl, rfl, rfl, rfl, _, rfl, by simp [applyFailedUpdate, mk_workflow_doc], rfl⟩
    rw [List.countP_append, hcount]
    simp [List.countP_cons, applyFailedUpdate, mk_workflow_doc]

/-- Example database for batch-run witnesses: two resumes and one JD. -/
def exBatchDb : DB :=
  { resumes := [{ id := "R1", text := "t1" }, { id := "R2", text := "t2" }]
    jds := [exJd1] }

/-- Example batch request over both resumes. -/
def exBatchReq : MatchingBatchRequest := { jd_id := "JD-1", resume_ids := some ["R1", "R2"] }

/-- Example persistence oracle: the save of item 0 fails, item 1 succeeds. -/
def exSaveOk : ℕ → Bool := fun i => i != 0

/-- Example clock value (epoch milliseconds). -/
def exNow : ℕ := 1700000000000

/-- The mock batch response produced for `exBatchDb`/`exBatchReq`. -/
def exMockResp : BatchResponse :=
  { workflow_id := batchWid exNow
    results := (resumesData exBatchDb.resumes (resolvedResumeIds exBatchDb exBatchReq)).map
      (mockBatchEntry exJd1.description)
    processing_time_ms := none }

/-- Witness for C1: a concrete run in mock mode where one of two saves
fails. -/
theorem batch_continue_on_error_witness :
    ∃ wrec, findWorkflow
        (batch_match_resumes exBatchDb exBatchReq "u1" exNow false "" NetOutcome.timeout exSaveOk).db
        (batchWid exNow) = some wrec ∧
      wrec.status = "completed" ∧
      wrec.processed_resumes =
        exMockResp.results.length - failedSaveCount exSaveOk 0 exMockResp.results.length ∧
      ∃ msg, (batch_match_resumes exBatchDb exBatchReq "u1" exNow false "" NetOutcome.timeout
          exSaveOk).resp = Except.ok msg ∧
        msg.data.status = "completed" ∧
        msg.data.processed_resumes =
          exMockResp.results.length - failedSaveCount exSaveOk 0 exMockResp.results.length :=
  batch_continue_on_error exBatchDb exBatchReq "u1" exNow false "" NetOutcome.timeout exSaveOk
    exJd1 exMockResp rfl (by decide) (fun w hw => absurd hw (List.not_mem_nil w)) rfl

/-- Witness for C2: a concrete run where the agent call times out. -/
theorem batch_scoring_failure_witness :
    ∃ wrec, findWorkflow
        (batch_match_resumes exBatchDb exBatchReq "u1" exNow true "" NetOutcome.timeout exSaveOk).db
        (batchWid exNow) = some wrec ∧
      wrec.status = "failed" ∧
      wrec.error = some "AI Agent timeout - processing took too long" ∧
      (∃ st ∈ wrec.agents, st.agent_id = "hr-comparator" ∧ st.status = "failed" ∧
        st.error = some "AI Agent timeout - processing took too long") ∧
      (batch_match_resumes exBatchDb exBatchReq "u1" exNow true "" NetOutcome.timeout
        exSaveOk).db.results = exBatchDb.results ∧
      (batch_match_resumes exBatchDb exBatchReq "u1" exNow true "" NetOutcome.timeout
        exSaveOk).db.workflows.length = exBatchDb.workflows.length + 1 ∧
      (batch_match_resumes exBatchDb exBatchReq "u1" exNow true "" NetOutcome.timeout
        exSaveOk).resp = Except.error
          { status := 500
            detail := "AI Agent error: " ++ "AI Agent timeout - processing took too long" } :=
  batch_scoring_failure exBatchDb exBatchReq "u1" exNow true "" NetOutcome.timeout exSaveOk
    exJd1 "AI Agent timeout - processing took too long" rfl (by decide)
    (fun w hw => absurd hw (List.not_mem_nil w)) rfl

/-- Example over-limit batch request: 101 resume ids. -/
def exReqOver : MatchingBatchRequest :=
  { jd_id := "JD-1", resume_ids := some (List.replicate 101 "RX") }

/-- Witness for C3: 101 requested resumes exceed the limit of 100. -/
theorem batch_over_limit_rejected_witness :
    (batch_match_resumes exBatchDb exReqOver "u1" exNow false "" NetOutcome.timeout exSaveOk).db =
      exBatchDb ∧
    (batch_match_resumes exBatchDb exReqOver "u1" exNow false "" NetOutcome.timeout exSaveOk).resp =
      Except.error
        { status := 400
          detail := "Maximum " ++ toString FREE_PLAN_RESUME_LIMIT ++ " resumes allowed per workflow." } :=
  batch_over_limit_rejected exBatchDb exReqOver "u1" exNow false "" NetOutcome.timeout exSaveOk
    exJd1 rfl (by decide)

/-- Witness for C4 at a concrete run starting from an empty result store. -/
theorem batch_replace_keeps_unique_witness :
    atMostOnePerPair
      (batch_match_resumes exBatchDb exBatchReq "u1" exNow false "" NetOutcome.timeout
        (fun _ => true)).db.results ∧
    { keys := [("resume_id", 1), ("jd_id", 1)], unique := true } ∈ resume_result_indexes :=
  batch_replace_keeps_unique exBatchDb exBatchReq "u1" exNow false "" NetOutcome.timeout
    (fun _ => true) List.Pairwise.nil

/-- Witness for C5 at a concrete accepted request. -/
theorem batch_creates_one_workflow_witness :
    (batch_match_resumes exBatchDb exBatchReq "u1" exNow false "" NetOutcome.timeout
      exSaveOk).db.workflows.length = exBatchDb.workflows.length + 1 ∧
    (batch_match_resumes exBatchDb exBatchReq "u1" exNow false "" NetOutcome.timeout
      exSaveOk).db.workflows.countP (fun w => w.workflow_id == batchWid exNow) = 1 ∧
    (mk_workflow_doc exBatchDb.nextId (batchWid exNow) exBatchReq.jd_id exJd1.designation "u1"
      exNow (resolvedResumeIds exBatchDb exBatchReq)).status = "in_progress" := by
  have h := batch_creates_one_workflow exBatchDb exBatchReq "u1" exNow false "" NetOutcome.timeout
    exSaveOk exJd1 rfl (by decide) (fun w hw => absurd hw (List.not_mem_nil w))
  exact ⟨h.1, h.2.1, h.2.2.2.1⟩
